import Mathlib

set_option maxRecDepth 8192

/-!
Verification development for `rfid_arduino_standalone.ino`, an Arduino
access-control controller: a frame decoder for an RDM6300 RFID reader, an
EEPROM-backed authorization store, and the polling control loop that drives
a relay, a bicolor LED and a buzzer.

The definitions below are a shallow embedding of the sketch.  EEPROM is a
byte store `Nat → Nat` read through `eepRead` (which models the byte width
of a cell by reducing mod 256).  The C `for` loops over the EEPROM table
(`for(eepAddr=0; eepAddr<eepLength-5; eepAddr+=5)`) are embedded as
structurally recursive functions on a fuel argument that is large enough
(205) for the loop bound 1019; the guard tested at each step is the loop
condition of the source.  32-bit unsigned arithmetic is modelled on `Nat`
with explicit `% 2^32` where the source can wrap.
-/

/-! ## Compile-time settings (source lines 62-168) -/

def startupTimeout : Nat := 10000
def deniedTimeout : Nat := 3000
def addTagTimeout : Nat := 5000
def runningStopTimeout : Nat := 3000
def SHORTBUZZ : Nat := 150
def LONGBUZZ : Nat := 500
def GOODBUZZTONE : Nat := 2000
def BADBUZZTONE : Nat := 1000
def ADMINDOWN : Nat := 0
def RELAYON : Nat := 1
def RELAYOFF : Nat := 0
def RUNON : Nat := 1
def eepLength : Nat := 1024

def STATUSOFF : Int := 0
def STATUSON : Int := 1
def STATUSTURNON : Int := 2
def STATUSDENIED : Int := 3
def STATUSADD : Int := 4
def STATUSADDED : Int := 5
def STATUSDEL : Int := 6
def STATUSTURNOFF : Int := 7

def statusEmpty : Nat := 0
def statusAuthorized : Nat := 1
def statusAdmin : Nat := 2

/-- 2^32; `unsigned long` arithmetic on the AVR target is 32-bit. -/
def U32 : Nat := 2 ^ 32

/-- `adminTagsList` (source line 62): the initializer `0xb0009afb7f` is
truncated by the compiler to the 32-bit `unsigned long`, as the source
comment notes ("only last 8 digits (32-bits) is checked"); the final `0`
is the end-of-list sentinel. -/
def adminTagsList : List Nat := [0xb0009afb7f % U32, 0]

/-- Loop body of `checkAdminTag` (source lines 610-622): scan until the
`0` sentinel, return `statusAdmin` on a match. -/
def checkAdminTagGo : List Nat → Nat → Nat
  | [], _ => 0
  | e :: rest, fobId =>
    if e = 0 then 0
    else if fobId = e then statusAdmin
    else checkAdminTagGo rest fobId

def checkAdminTag (fobId : Nat) : Nat := checkAdminTagGo adminTagsList fobId

/-! ## EEPROM model -/

/-- `EEPROM.read`: an EEPROM cell holds one byte. -/
def eepRead (eep : Nat → Nat) (a : Nat) : Nat := eep a % 256

/-- `EEPROM.write`: store one byte at address `a`. -/
def eepWrite (eep : Nat → Nat) (a v : Nat) : Nat → Nat :=
  fun x => if x = a then v % 256 else eep x

/-- The 4-byte big-endian entry id read at slot address `a`
(source lines 640-645: `entryId <<= 8; entryId += EEPROM.read(...)`).
Four bytes assemble to a value below 2^32, so the 32-bit `unsigned long`
cannot wrap here. -/
def readEntryId (eep : Nat → Nat) (a : Nat) : Nat :=
  ((eepRead eep a * 256 + eepRead eep (a + 1)) * 256 + eepRead eep (a + 2)) * 256
    + eepRead eep (a + 3)

/-- The addresses visited by `for(eepAddr=0; eepAddr<eepLength-5; eepAddr+=5)`
starting from `a`, with enough fuel. -/
def loopAddrs : Nat → Nat → List Nat
  | 0, _ => []
  | fuel + 1, a => if a < eepLength - 5 then a :: loopAddrs fuel (a + 5) else []

/-- The slot addresses 0, 5, ..., 1015 scanned by every EEPROM loop of the
source. -/
def slotAddrs : List Nat := loopAddrs 205 0

/-- Loop of `checkAuthTag` (source lines 628-656): scan every slot; every
time the entry id matches, overwrite `entryStatus` with that slot's status
byte. -/
def checkAuthTagGo (eep : Nat → Nat) (fobId : Nat) : Nat → Nat → Nat → Nat
  | 0, _, entryStatus => entryStatus
  | fuel + 1, a, entryStatus =>
    if a < eepLength - 5 then
      checkAuthTagGo eep fobId fuel (a + 5)
        (if readEntryId eep a = fobId then eepRead eep (a + 4) else entryStatus)
    else entryStatus

/-- `checkAuthTag(fobId)` (source lines 628-656). -/
def checkAuthTag (eep : Nat → Nat) (fobId : Nat) : Nat :=
  checkAuthTagGo eep fobId 205 0 0

/-- The five `EEPROM.write` calls of `addAuthTag` at a chosen slot
(source lines 674-680): big-endian id bytes, then status `statusAuthorized`.
`(fobId>>n)&0xFF` is written `fobId >>> n % 256`. -/
def writeSlot (eep : Nat → Nat) (a fobId : Nat) : Nat → Nat :=
  eepWrite
    (eepWrite
      (eepWrite
        (eepWrite (eepWrite eep a ((fobId >>> 24) % 256)) (a + 1) ((fobId >>> 16) % 256))
        (a + 2) ((fobId >>> 8) % 256))
      (a + 3) (fobId % 256))
    (a + 4) statusAuthorized

/-- Source line 672: a slot is reusable when its status byte is
`statusEmpty` or `0xFF` (a never-written cell). -/
def freeStatus (st : Nat) : Bool := st == statusEmpty || st == 0xFF

/-- Loop of `addAuthTag` (source lines 662-688): write into the first slot
whose status byte is free and return `statusAuthorized`; return `0` when
the scan finds none. -/
def addAuthTagGo (eep : Nat → Nat) (fobId : Nat) : Nat → Nat → Nat × (Nat → Nat)
  | 0, _ => (0, eep)
  | fuel + 1, a =>
    if a < eepLength - 5 then
      if freeStatus (eepRead eep (a + 4)) then (statusAuthorized, writeSlot eep a fobId)
      else addAuthTagGo eep fobId fuel (a + 5)
    else (0, eep)

/-- `addAuthTag(fobId)` (source lines 662-688); returns the C return value
paired with the new EEPROM contents. -/
def addAuthTag (eep : Nat → Nat) (fobId : Nat) : Nat × (Nat → Nat) :=
  addAuthTagGo eep fobId 205 0

/-- Loop of `clearAuthTags` (source lines 693-700): write `statusEmpty`
over every slot's status byte. -/
def clearAuthTagsGo : Nat → Nat → (Nat → Nat) → (Nat → Nat)
  | 0, _, eep => eep
  | fuel + 1, a, eep =>
    if a < eepLength - 5 then clearAuthTagsGo fuel (a + 5) (eepWrite eep (a + 4) statusEmpty)
    else eep

/-- `clearAuthTags()` (source lines 693-700). -/
def clearAuthTags (eep : Nat → Nat) : Nat → Nat := clearAuthTagsGo 205 0 eep

/-! ## Frame decoder (source lines 435-493)

The claims concern the validation applied to the six payload bytes that
remain after per-byte bit reversal, so the decoder is embedded from that
point: checksum loop, all-identical scan with early `break`, and 32-bit
id assembly from payload bytes 1-4. -/

/-- Validation and id assembly of a received 6-byte packet
(source lines 469-493), taking the six bit-reversed payload bytes.
`none` models the `return` statements that discard the frame. -/
def decodeFrame (b0 b1 b2 b3 b4 b5 : Nat) : Option Nat :=
  let val := (((((0 ^^^ b0) ^^^ b1) ^^^ b2) ^^^ b3) ^^^ b4) ^^^ b5
  if val ≠ 0 then none
  else
    let i := if b1 ≠ b0 then 1 else if b2 ≠ b0 then 2 else if b3 ≠ b0 then 3
             else if b4 ≠ b0 then 4 else if b5 ≠ b0 then 5 else 6
    if i ≥ 6 then none
    else some (((((((0 * 256 + b1) % U32) * 256 + b2) % U32 * 256 + b3) % U32) * 256 + b4) % U32)

/-! ## Control loop state -/

/-- The mutable globals of the sketch together with the output pins the
loop drives (source lines 162-184; relay and LED pins hold their level
between writes). -/
structure SysState where
  systemStatus : Int
  bootAdminMode : Bool
  fobPresentMilli : Nat
  runTimeMilli : Nat
  runningGraceMilli : Nat
  activeFobId : Nat
  relay : Nat
  ledGreen : Nat
  ledRed : Nat
  eeprom : Nat → Nat

/-- The level-sampled inputs of one `loop()` iteration: the two run-sense
pins, the admin button pin, `millis()`, and the decoded frame delivered by
the serial path this iteration (`none` when no valid frame completed). -/
structure Inputs where
  runningPin : Nat
  runningPinInv : Nat
  adminButton : Nat
  now : Nat
  frame : Option Nat

/-- Observable side effects of one iteration: `Serial.print` audit records
(event name and fob id) and `tone` calls (frequency, duration). -/
inductive Effect where
  | log : String → Nat → Effect
  | tone : Nat → Nat → Effect
  deriving DecidableEq

def isLogNamed (name : String) : Effect → Bool
  | Effect.log n _ => n == name
  | Effect.tone _ _ => false

/-- Number of audit records with the given event name. -/
def countLog (name : String) (effs : List Effect) : Nat :=
  (effs.filter (isLogNamed name)).length

/-- The timeout comparison pattern used by every time-driven rule of the
loop: `millis() > marker + timeout` on 32-bit unsigned values
(source lines 324, 342, 356, 362, 388, 394). -/
def timeoutExpired (now marker timeout : Nat) : Bool :=
  decide ((marker + timeout) % U32 < now)

/-- 32-bit unsigned subtraction `a - b` (for the blink phase computations
`(millis() - t)/500`); callers pass values below 2^32. -/
def u32sub (a b : Nat) : Nat := (a + U32 - b) % U32

/-- The time- and sensor-driven `else if` chain at the top of `loop()`
(source lines 290-431), evaluated before any frame is handled. -/
def phaseA (s : SysState) (inp : Inputs) : SysState × List Effect :=
  let now := inp.now % U32
  if s.systemStatus = STATUSTURNON ∧ (inp.runningPin = RUNON ∨ inp.runningPinInv = 0) then
    ({ s with systemStatus := STATUSON, runTimeMilli := now },
      [Effect.log "start" s.activeFobId])
  else if s.systemStatus = STATUSON ∧ ¬(inp.runningPin = RUNON ∨ inp.runningPinInv = 0) then
    ({ s with systemStatus := STATUSTURNOFF, runningGraceMilli := now },
      [Effect.log "stop" s.activeFobId])
  else if s.systemStatus = STATUSTURNOFF ∧ (inp.runningPin = RUNON ∨ inp.runningPinInv = 0) then
    ({ s with systemStatus := STATUSON },
      [Effect.log "restart" s.activeFobId])
  else if s.systemStatus = STATUSTURNOFF ∧ timeoutExpired now s.runningGraceMilli runningStopTimeout then
    ({ s with systemStatus := STATUSOFF, ledGreen := 0, ledRed := 0, relay := RELAYOFF },
      [Effect.log "logout" s.activeFobId, Effect.tone BADBUZZTONE LONGBUZZ])
  else if s.systemStatus = STATUSTURNON ∧ timeoutExpired now s.fobPresentMilli startupTimeout then
    ({ s with systemStatus := STATUSOFF, ledGreen := 0, ledRed := 0, relay := RELAYOFF },
      [Effect.log "timeout" s.activeFobId, Effect.tone BADBUZZTONE LONGBUZZ])
  else if s.systemStatus = STATUSDENIED ∧ timeoutExpired now s.fobPresentMilli deniedTimeout then
    ({ s with systemStatus := STATUSOFF, ledGreen := 0, ledRed := 0 }, [])
  else if s.systemStatus = STATUSADD ∧ timeoutExpired now s.fobPresentMilli addTagTimeout then
    ({ s with systemStatus := STATUSOFF, ledGreen := 0, ledRed := 0 }, [])
  else if s.systemStatus = STATUSADD ∧ inp.adminButton ≠ ADMINDOWN then
    ({ s with systemStatus := STATUSOFF, ledGreen := 0, ledRed := 0 }, [])
  else if s.systemStatus = STATUSADD then
    (if (u32sub now s.fobPresentMilli / 500) % 2 = 1 then
        { s with ledGreen := 0, ledRed := 0 }
      else { s with ledGreen := 1, ledRed := 0 }, [])
  else if s.systemStatus = STATUSADDED ∧ timeoutExpired now s.fobPresentMilli deniedTimeout then
    ({ s with systemStatus := STATUSOFF, ledGreen := 0, ledRed := 0 }, [])
  else if s.systemStatus = STATUSDEL ∧ timeoutExpired now s.fobPresentMilli deniedTimeout then
    ({ s with systemStatus := STATUSOFF, ledGreen := 0, ledRed := 0 }, [])
  else if s.systemStatus = STATUSDEL then
    (if (u32sub now s.fobPresentMilli / 500) % 2 = 1 then
        { s with ledGreen := 0, ledRed := 0 }
      else { s with ledGreen := 0, ledRed := 1 }, [])
  else if s.bootAdminMode ∧ inp.adminButton ≠ ADMINDOWN then
    ({ s with bootAdminMode := false, ledGreen := 0, ledRed := 0 }, [])
  else if s.bootAdminMode then
    (if (now / 500) % 2 = 1 then { s with ledGreen := 1, ledRed := 0 }
      else { s with ledGreen := 0, ledRed := 1 }, [])
  else (s, [])

/-- Handling of one decoded tag presentation (source lines 495-601):
record `fobPresentMilli`, then branch on the admin button and the current
state exactly as the source does. -/
def handleTag (s0 : SysState) (btn now fobId : Nat) : SysState × List Effect :=
  let s := { s0 with fobPresentMilli := now % U32 }
  if btn = ADMINDOWN ∧ s.systemStatus ≠ STATUSON ∧ s.systemStatus ≠ STATUSTURNON then
    if checkAdminTag fobId = statusAdmin then
      if s.bootAdminMode then
        if s.systemStatus ≠ STATUSDEL ∨ s.activeFobId ≠ fobId then
          ({ s with
              ledGreen := 0
              ledRed := 1
              eeprom := clearAuthTags s.eeprom
              systemStatus := STATUSDEL
              activeFobId := fobId
              fobPresentMilli := now % U32 },
            [Effect.log "deleted" fobId,
              Effect.tone GOODBUZZTONE SHORTBUZZ, Effect.tone GOODBUZZTONE SHORTBUZZ,
              Effect.tone GOODBUZZTONE SHORTBUZZ])
        else
          ({ s with activeFobId := fobId, fobPresentMilli := now % U32 }, [])
      else
        if s.systemStatus ≠ STATUSADD ∨ s.activeFobId ≠ fobId then
          ({ s with
              systemStatus := STATUSADD
              ledGreen := 1
              ledRed := 0
              activeFobId := fobId },
            [Effect.log "admin" fobId, Effect.tone GOODBUZZTONE SHORTBUZZ])
        else
          ({ s with activeFobId := fobId }, [])
    else if s.systemStatus = STATUSADD ∧ checkAuthTag s.eeprom fobId = 0 then
      ({ s with
          systemStatus :=
            if (addAuthTag s.eeprom fobId).1 ≠ 0 then STATUSADDED else STATUSDEL
          eeprom := (addAuthTag s.eeprom fobId).2 },
        [Effect.log "added" fobId,
          Effect.tone GOODBUZZTONE SHORTBUZZ, Effect.tone GOODBUZZTONE SHORTBUZZ])
    else (s, [])
  else
    if checkAuthTag s.eeprom fobId ≠ 0 ∨ checkAdminTag fobId ≠ 0 then
      if s.systemStatus ≠ STATUSON then
        if s.systemStatus ≠ STATUSTURNON then
          ({ s with
              ledGreen := 1
              ledRed := 0
              relay := RELAYON
              systemStatus := STATUSTURNON
              activeFobId := fobId },
            [Effect.tone GOODBUZZTONE SHORTBUZZ, Effect.log "login" fobId])
        else
          ({ s with
              ledGreen := 1
              ledRed := 0
              relay := RELAYON
              systemStatus := STATUSTURNON }, [])
      else
        ({ s with ledGreen := 1, ledRed := 0, relay := RELAYON }, [])
    else if s.systemStatus = STATUSOFF ∨ s.systemStatus = STATUSTURNON then
      if s.systemStatus ≠ STATUSDENIED ∨ s.activeFobId ≠ fobId then
        ({ s with
            ledGreen := 0
            ledRed := 1
            relay := RELAYOFF
            systemStatus := STATUSDENIED },
          [Effect.tone BADBUZZTONE LONGBUZZ, Effect.log "denied" fobId])
      else
        ({ s with ledGreen := 0, ledRed := 1 }, [])
    else (s, [])

/-- One iteration of `loop()` (source lines 279-603): the time/sensor
chain, then at most one decoded frame. -/
def loopStep (s : SysState) (inp : Inputs) : SysState × List Effect :=
  let r1 := phaseA s inp
  match inp.frame with
  | none => r1
  | some fobId =>
    let r2 := handleTag r1.1 inp.adminButton inp.now fobId
    (r2.1, r1.2 ++ r2.2)

/-- `setup()` (source lines 189-274) with the shipped configuration
`keepRunningOnPowerup = 0`: relay off, LEDs off, state `STATUSOFF`;
`bootAdminMode` latches the admin button sampled at boot.  The other
globals are zero-initialized. -/
def setup (eep : Nat → Nat) (adminDownAtBoot : Bool) : SysState :=
  let s : SysState :=
    { systemStatus := STATUSOFF, bootAdminMode := false,
      fobPresentMilli := 0, runTimeMilli := 0, runningGraceMilli := 0,
      activeFobId := 0, relay := RELAYOFF, ledGreen := 0, ledRed := 0,
      eeprom := eep }
  if adminDownAtBoot then { s with bootAdminMode := true } else s

/-! ## Loop-to-list lemmas

Each fuel-recursive EEPROM loop equals a `List` traversal of the addresses
it visits; the fuel 205 covers the source loop bound `eepAddr < 1019`. -/

theorem checkAuthTagGo_eq_foldl (eep : Nat → Nat) (fobId : Nat) :
    ∀ (fuel a st : Nat),
      checkAuthTagGo eep fobId fuel a st =
        (loopAddrs fuel a).foldl
          (fun st x => if readEntryId eep x = fobId then eepRead eep (x + 4) else st) st
  | 0, _, _ => rfl
  | fuel + 1, a, st => by
    unfold checkAuthTagGo loopAddrs
    by_cases h : a < eepLength - 5
    · simp only [if_pos h, List.foldl_cons]
      exact checkAuthTagGo_eq_foldl eep fobId fuel (a + 5) _
    · simp [if_neg h]

theorem addAuthTagGo_eq_find (eep : Nat → Nat) (fobId : Nat) :
    ∀ (fuel a : Nat),
      addAuthTagGo eep fobId fuel a =
        match (loopAddrs fuel a).find? (fun x => freeStatus (eepRead eep (x + 4))) with
        | some b => (statusAuthorized, writeSlot eep b fobId)
        | none => (0, eep)
  | 0, _ => rfl
  | fuel + 1, a => by
    unfold addAuthTagGo loopAddrs
    by_cases h : a < eepLength - 5
    · simp only [if_pos h]
      by_cases hf : freeStatus (eepRead eep (a + 4))
      · simp [List.find?_cons, hf]
      · simp only [List.find?_cons, hf, if_neg hf]
        exact addAuthTagGo_eq_find eep fobId fuel (a + 5)
    · simp [if_neg h]

theorem clearAuthTagsGo_eq_foldl :
    ∀ (fuel a : Nat) (eep : Nat → Nat),
      clearAuthTagsGo fuel a eep =
        (loopAddrs fuel a).foldl (fun e x => eepWrite e (x + 4) statusEmpty) eep
  | 0, _, _ => rfl
  | fuel + 1, a, eep => by
    unfold clearAuthTagsGo loopAddrs
    by_cases h : a < eepLength - 5
    · simp only [if_pos h, List.foldl_cons]
      exact clearAuthTagsGo_eq_foldl fuel (a + 5) _
    · simp [if_neg h]

theorem slotAddrs_eq_range : slotAddrs = (List.range 204).map (fun k => k * 5) := by
  decide

theorem mem_slotAddrs {a : Nat} : a ∈ slotAddrs ↔ a % 5 = 0 ∧ a < 1019 := by
  rw [slotAddrs_eq_range]
  simp only [List.mem_map, List.mem_range]
  constructor
  · rintro ⟨k, hk, rfl⟩
    omega
  · rintro ⟨h5, hlt⟩
    exact ⟨a / 5, by omega, by omega⟩

/-! ## Generic scan lemmas -/

theorem foldl_ite_const {p : Nat → Prop} [DecidablePred p] (g : Nat → Nat) (c : Nat) :
    ∀ (l : List Nat), (∀ b ∈ l, p b → g b = c) →
      l.foldl (fun st b => if p b then g b else st) c = c
  | [], _ => rfl
  | b :: l, h => by
    simp only [List.foldl_cons]
    by_cases hb : p b
    · rw [if_pos hb, h b (by simp) hb]
      exact foldl_ite_const g c l (fun x hx hp => h x (by simp [hx]) hp)
    · rw [if_neg hb]
      exact foldl_ite_const g c l (fun x hx hp => h x (by simp [hx]) hp)

theorem foldl_ite_find_rev {p : Nat → Prop} [DecidablePred p] (g : Nat → Nat)
    (l : List Nat) : ∀ (st : Nat),
      l.foldl (fun st b => if p b then g b else st) st =
        ((l.reverse.find? (fun b => decide (p b))).map g).getD st := by
  induction l using List.reverseRecOn with
  | nil => intro st; rfl
  | append_singleton l b ih =>
    intro st
    rw [List.foldl_append, List.reverse_append]
    simp only [List.foldl_cons, List.foldl_nil, List.reverse_singleton,
      List.singleton_append, List.find?_cons]
    by_cases hb : p b
    · simp [hb]
    · rw [if_neg hb]
      simp only [decide_eq_false hb]
      exact ih st

/-! ## Store-level characterizations -/

theorem checkAuthTag_eq_foldl (eep : Nat → Nat) (fobId : Nat) :
    checkAuthTag eep fobId =
      slotAddrs.foldl
        (fun st x => if readEntryId eep x = fobId then eepRead eep (x + 4) else st) 0 :=
  checkAuthTagGo_eq_foldl eep fobId 205 0 0

theorem addAuthTag_eq_find (eep : Nat → Nat) (fobId : Nat) :
    addAuthTag eep fobId =
      match slotAddrs.find? (fun x => freeStatus (eepRead eep (x + 4))) with
      | some b => (statusAuthorized, writeSlot eep b fobId)
      | none => (0, eep) :=
  addAuthTagGo_eq_find eep fobId 205 0

theorem clearAuthTags_eq_foldl (eep : Nat → Nat) :
    clearAuthTags eep = slotAddrs.foldl (fun e x => eepWrite e (x + 4) statusEmpty) eep :=
  clearAuthTagsGo_eq_foldl 205 0 eep

theorem foldl_eepWrite_apply (x v : Nat) :
    ∀ (l : List Nat) (eep : Nat → Nat),
      (l.foldl (fun e a => eepWrite e (a + 4) v) eep) x =
        if ∃ a ∈ l, x = a + 4 then v % 256 else eep x
  | [], eep => by simp
  | a :: l, eep => by
    simp only [List.foldl_cons]
    rw [foldl_eepWrite_apply x v l]
    by_cases hl : ∃ b ∈ l, x = b + 4
    · rw [if_pos hl]
      rcases hl with ⟨b, hb, hxb⟩
      rw [if_pos ⟨b, List.mem_cons_of_mem a hb, hxb⟩]
    · rw [if_neg hl]
      simp only [eepWrite]
      by_cases hx : x = a + 4
      · rw [if_pos hx, if_pos ⟨a, List.mem_cons_self a l, hx⟩]
      · have hcons : ¬ ∃ b ∈ a :: l, x = b + 4 := by
          rintro ⟨b, hb, rfl⟩
          rcases List.mem_cons.mp hb with h | h
          · exact hx (by rw [h])
          · exact hl ⟨b, h, rfl⟩
        rw [if_neg hx, if_neg hcons]

/-- Pointwise effect of `clearAuthTags`: exactly the status byte of each
slot (addresses `≡ 4 mod 5` below 1020) is set to `statusEmpty`; every
other cell keeps its value. -/
theorem clearAuthTags_apply (eep : Nat → Nat) (x : Nat) :
    clearAuthTags eep x = if x % 5 = 4 ∧ x < 1020 then statusEmpty else eep x := by
  rw [clearAuthTags_eq_foldl, foldl_eepWrite_apply]
  have hiff : (∃ a ∈ slotAddrs, x = a + 4) ↔ (x % 5 = 4 ∧ x < 1020) := by
    constructor
    · rintro ⟨a, ha, rfl⟩
      rcases mem_slotAddrs.mp ha with ⟨h5, hlt⟩
      omega
    · rintro ⟨h5, hlt⟩
      exact ⟨x - 4, mem_slotAddrs.mpr (by omega), by omega⟩
  by_cases h : x % 5 = 4 ∧ x < 1020
  · rw [if_pos (hiff.mpr h), if_pos h]
    decide
  · rw [if_neg (fun hx => h (hiff.mp hx)), if_neg h]

/-- After `clearAuthTags` every lookup reports `statusEmpty`: a matching
slot can only contribute its (now zero) status byte. -/
theorem checkAuthTag_clearAuthTags (eep : Nat → Nat) (fobId : Nat) :
    checkAuthTag (clearAuthTags eep) fobId = statusEmpty := by
  rw [checkAuthTag_eq_foldl]
  exact foldl_ite_const _ 0 slotAddrs (fun b hb _ => by
    rcases mem_slotAddrs.mp hb with ⟨h5, hlt⟩
    rw [eepRead, clearAuthTags_apply, if_pos (by omega : (b + 4) % 5 = 4 ∧ b + 4 < 1020)]
    rfl)

theorem writeSlot_apply_other (eep : Nat → Nat) (a fobId x : Nat)
    (h0 : x ≠ a) (h1 : x ≠ a + 1) (h2 : x ≠ a + 2) (h3 : x ≠ a + 3) (h4 : x ≠ a + 4) :
    writeSlot eep a fobId x = eep x := by
  simp only [writeSlot, eepWrite]
  rw [if_neg h4, if_neg h3, if_neg h2, if_neg h1, if_neg h0]

theorem writeSlot_apply_0 (eep : Nat → Nat) (a fobId : Nat) :
    writeSlot eep a fobId a = (fobId >>> 24) % 256 % 256 := by
  simp only [writeSlot, eepWrite]
  rw [if_neg (by omega : ¬ a = a + 4), if_neg (by omega : ¬ a = a + 3),
    if_neg (by omega : ¬ a = a + 2), if_neg (by omega : ¬ a = a + 1)]
  simp

theorem writeSlot_apply_1 (eep : Nat → Nat) (a fobId : Nat) :
    writeSlot eep a fobId (a + 1) = (fobId >>> 16) % 256 % 256 := by
  simp only [writeSlot, eepWrite]
  rw [if_neg (by omega : ¬ a + 1 = a + 4), if_neg (by omega : ¬ a + 1 = a + 3),
    if_neg (by omega : ¬ a + 1 = a + 2)]
  simp

theorem writeSlot_apply_2 (eep : Nat → Nat) (a fobId : Nat) :
    writeSlot eep a fobId (a + 2) = (fobId >>> 8) % 256 % 256 := by
  simp only [writeSlot, eepWrite]
  rw [if_neg (by omega : ¬ a + 2 = a + 4), if_neg (by omega : ¬ a + 2 = a + 3)]
  simp

theorem writeSlot_apply_3 (eep : Nat → Nat) (a fobId : Nat) :
    writeSlot eep a fobId (a + 3) = fobId % 256 % 256 := by
  simp only [writeSlot, eepWrite]
  rw [if_neg (by omega : ¬ a + 3 = a + 4)]
  simp

theorem readEntryId_writeSlot (eep : Nat → Nat) (a fobId : Nat) (h : fobId < U32) :
    readEntryId (writeSlot eep a fobId) a = fobId := by
  have h' : fobId < 4294967296 := by
    have : U32 = 4294967296 := by norm_num [U32]
    omega
  have e24 : fobId >>> 24 = fobId / 16777216 := by
    rw [Nat.shiftRight_eq_div_pow]
  have e16 : fobId >>> 16 = fobId / 65536 := by
    rw [Nat.shiftRight_eq_div_pow]
  have e8 : fobId >>> 8 = fobId / 256 := by
    rw [Nat.shiftRight_eq_div_pow]
  simp only [readEntryId, eepRead, writeSlot_apply_0, writeSlot_apply_1,
    writeSlot_apply_2, writeSlot_apply_3, e24, e16, e8]
  omega

/-- `writeSlot` at slot `a` does not disturb the bytes of a different slot
`b` (both slot-aligned): the five written addresses `a..a+4` avoid
`b..b+3`. -/
theorem readEntryId_writeSlot_other (eep : Nat → Nat) (a b fobId : Nat)
    (ha : a % 5 = 0) (hb : b % 5 = 0) (hne : b ≠ a) :
    readEntryId (writeSlot eep a fobId) b = readEntryId eep b := by
  simp only [readEntryId, eepRead]
  rw [writeSlot_apply_other eep a fobId b (by omega) (by omega) (by omega) (by omega) (by omega),
    writeSlot_apply_other eep a fobId (b + 1) (by omega) (by omega) (by omega) (by omega) (by omega),
    writeSlot_apply_other eep a fobId (b + 2) (by omega) (by omega) (by omega) (by omega) (by omega),
    writeSlot_apply_other eep a fobId (b + 3) (by omega) (by omega) (by omega) (by omega) (by omega)]

/-- The status byte written by `writeSlot` reads back as `statusAuthorized`. -/
theorem eepRead_writeSlot_status (eep : Nat → Nat) (a fobId : Nat) :
    eepRead (writeSlot eep a fobId) (a + 4) = statusAuthorized := by
  simp [writeSlot, eepWrite, eepRead, statusAuthorized]

/-! ## Concrete stores used by counterexamples and witnesses -/

/-- Factory-fresh EEPROM: every cell reads 0xFF. -/
def ffEeprom : Nat → Nat := fun _ => 0xFF

/-- Store with two slots whose id bytes decode to tag 1: slot 0 holds
`{1, statusAuthorized}`, slot 1 holds id 1 with an empty status byte;
all other cells are 0. -/
def c4Eeprom : Nat → Nat := fun a =>
  if a = 3 then 1 else if a = 4 then 1 else if a = 8 then 1 else 0

/-- Follows the spec's words for the C4 lookup contract: the status of the
last matching non-empty entry encountered in scan order, `Empty` when none
matches ("returns the status of the last (not first) matching non-empty
entry encountered in scan order if duplicates exist, `Empty` if none
match"). -/
def specLookupLastNonEmpty (eep : Nat → Nat) (fobId : Nat) : Nat :=
  slotAddrs.foldl
    (fun st a =>
      if readEntryId eep a = fobId ∧ eepRead eep (a + 4) ≠ statusEmpty then
        eepRead eep (a + 4)
      else st) 0

/-! ## Claim theorems -/

/-- Unrolled all-identical scan of the decoder (source lines 478-484):
the loop index reaches 6 exactly when all six bytes are identical. -/
theorem allSame_scan_iff (b0 b1 b2 b3 b4 b5 : Nat) :
    6 ≤ (if b1 ≠ b0 then 1 else if b2 ≠ b0 then 2 else if b3 ≠ b0 then 3
         else if b4 ≠ b0 then 4 else if b5 ≠ b0 then 5 else 6) ↔
      (b1 = b0 ∧ b2 = b0 ∧ b3 = b0 ∧ b4 = b0 ∧ b5 = b0) := by
  split_ifs <;> simp_all

/-- C2: for every 6-byte payload obtained after per-byte bit reversal, the
frame decoder produces a tag id iff the XOR of the 6 bytes is 0 and the 6
bytes are not all identical; otherwise the frame is discarded with no
output. -/
theorem c2_decode_iff (b0 b1 b2 b3 b4 b5 : Nat) :
    (decodeFrame b0 b1 b2 b3 b4 b5).isSome = true ↔
      (b0 ^^^ b1 ^^^ b2 ^^^ b3 ^^^ b4 ^^^ b5 = 0 ∧
        ¬(b1 = b0 ∧ b2 = b0 ∧ b3 = b0 ∧ b4 = b0 ∧ b5 = b0)) := by
  simp only [decodeFrame]
  by_cases hv : (((((0 ^^^ b0) ^^^ b1) ^^^ b2) ^^^ b3) ^^^ b4) ^^^ b5 ≠ 0
  · rw [if_pos hv]
    simp only [Option.isSome_none, Bool.false_eq_true, false_iff]
    rintro ⟨hz, -⟩
    exact hv (by simpa [Nat.zero_xor] using hz)
  · rw [if_neg hv]
    push_neg at hv
    by_cases hs : b1 = b0 ∧ b2 = b0 ∧ b3 = b0 ∧ b4 = b0 ∧ b5 = b0
    · rw [if_pos ((allSame_scan_iff b0 b1 b2 b3 b4 b5).mpr hs)]
      simp only [Option.isSome_none, Bool.false_eq_true, false_iff]
      rintro ⟨-, hns⟩
      exact hns hs
    · rw [if_neg (fun h6 => hs ((allSame_scan_iff b0 b1 b2 b3 b4 b5).mp h6))]
      simp only [Option.isSome_some, true_iff]
      exact ⟨by simpa [Nat.zero_xor] using hv, hs⟩

/-- C9: the timeout guards of the loop compare `millis() > marker + timeout`
with the sum wrapping at 2^32.  At marker 4294966296 (about one second
before `millis()` wraps) and current time 4294967295 the grace-period guard
fires although only 999 ms have elapsed, which is not more than the
3000 ms `runningStopTimeout` — the guard is not the claimed elapsed-time
comparison. -/
theorem c9_timeout_guard_wraparound :
    timeoutExpired 4294967295 4294966296 runningStopTimeout = true ∧
    u32sub 4294967295 4294966296 = 999 ∧
    ¬(999 > runningStopTimeout) := by decide

/-- C4 counterexample: in `c4Eeprom` the slots 0 and 1 both match tag 1;
slot 0 is the last matching non-empty entry (status `statusAuthorized`),
yet `checkAuthTag` returns `statusEmpty`, because the scan also lets the
later matching empty slot overwrite the result. -/
theorem c4_lookup_cex :
    specLookupLastNonEmpty c4Eeprom 1 = statusAuthorized ∧
    checkAuthTag c4Eeprom 1 = statusEmpty := by decide

/-- C4 (amended): `checkAuthTag` scans all slots linearly and returns the
status byte of the last slot in scan order whose identifier bytes match,
whether or not that slot's status is empty; it returns `statusEmpty` when
no slot's identifier bytes match. -/
theorem c4_lookup_returns_last_match (eep : Nat → Nat) (fobId : Nat) :
    checkAuthTag eep fobId =
      ((slotAddrs.reverse.find? (fun a => decide (readEntryId eep a = fobId))).map
        (fun a => eepRead eep (a + 4))).getD statusEmpty := by
  rw [checkAuthTag_eq_foldl]
  exact foldl_ite_find_rev (fun a => eepRead eep (a + 4)) slotAddrs 0

/-- C7 counterexample: on a factory-fresh store no slot has status
`statusEmpty` (every status byte reads 0xFF), so by the claim `insert`
should fail with Full — but `addAuthTag` succeeds, because the source also
treats status 0xFF as a free slot. -/
theorem c7_insert_cex :
    (addAuthTag ffEeprom 5).1 = statusAuthorized ∧
    (slotAddrs.all (fun a => decide (eepRead ffEeprom (a + 4) ≠ statusEmpty))) = true := by
  decide

/-- C7 (amended): `addAuthTag` scans slots in order and writes the
big-endian tag bytes and `statusAuthorized` into the first slot whose
status byte is `statusEmpty` or 0xFF, leaving every other cell unchanged
(`writeSlot` touches only `a..a+4`); it returns 0 (Full) exactly when no
such slot exists, and performs no duplicate check. -/
theorem c7_insert_first_free (eep : Nat → Nat) (fobId : Nat) :
    addAuthTag eep fobId =
      match slotAddrs.find? (fun a => freeStatus (eepRead eep (a + 4))) with
      | some a => (statusAuthorized, writeSlot eep a fobId)
      | none => (0, eep) :=
  addAuthTag_eq_find eep fobId

/-- C8: `clearAuthTags` sets exactly each slot's status byte (the cells
`≡ 4 mod 5` below 1020) to `statusEmpty` and leaves every identifier byte
unchanged; on a store whose slots are all already empty it changes no
cell. -/
theorem c8_eraseAll_frame (eep : Nat → Nat) :
    (∀ x, clearAuthTags eep x = if x % 5 = 4 ∧ x < 1020 then statusEmpty else eep x) ∧
    ((∀ a ∈ slotAddrs, eep (a + 4) = statusEmpty) → ∀ x, clearAuthTags eep x = eep x) := by
  refine ⟨clearAuthTags_apply eep, fun h x => ?_⟩
  rw [clearAuthTags_apply]
  by_cases hx : x % 5 = 4 ∧ x < 1020
  · rw [if_pos hx]
    have hmem := h (x - 4) (mem_slotAddrs.mpr (by omega))
    have hx4 : x - 4 + 4 = x := by omega
    rw [hx4] at hmem
    exact hmem.symm
  · rw [if_neg hx]

/-- Witness for C8: the hypothesis of the no-op part holds on the all-zero
store, and erasing it leaves cell 9 unchanged. -/
theorem c8_eraseAll_frame_witness : clearAuthTags (fun _ => 0) 9 = 0 :=
  (c8_eraseAll_frame (fun _ => 0)).2 (fun _ _ => rfl) 9

/-- C3 counterexample: on the all-zero store (every slot erased but with
id bytes 0) inserting tag 0 succeeds, yet the immediately following lookup
of tag 0 returns `statusEmpty`: every later erased slot also matches id 0
and overwrites the scan result with its empty status byte. -/
theorem c3_insert_lookup_cex :
    (addAuthTag (fun _ => 0) 0).1 = statusAuthorized ∧
    checkAuthTag (addAuthTag (fun _ => 0) 0).2 0 = statusEmpty := by decide

/-- C3 (amended): if no slot's identifier bytes already equal the (32-bit)
tag, then after a successful insert the lookup of that tag returns
`statusAuthorized`, and after `clearAuthTags` it returns `statusEmpty`. -/
theorem c3_insert_lookup_until_erase (eep : Nat → Nat) (t a : Nat) (ht : t < U32)
    (hfree : slotAddrs.find? (fun x => freeStatus (eepRead eep (x + 4))) = some a)
    (hnodup : ∀ b ∈ slotAddrs, readEntryId eep b ≠ t) :
    (addAuthTag eep t).1 = statusAuthorized ∧
    checkAuthTag (addAuthTag eep t).2 t = statusAuthorized ∧
    checkAuthTag (clearAuthTags (addAuthTag eep t).2) t = statusEmpty := by
  have hadd : addAuthTag eep t = (statusAuthorized, writeSlot eep a t) := by
    rw [addAuthTag_eq_find, hfree]
  have hmem : a ∈ slotAddrs := List.mem_of_find?_eq_some hfree
  have ha5 : a % 5 = 0 := (mem_slotAddrs.mp hmem).1
  refine ⟨by rw [hadd], ?_, ?_⟩
  · rw [hadd, checkAuthTag_eq_foldl]
    obtain ⟨l1, l2, hsplit⟩ := List.append_of_mem hmem
    rw [hsplit, List.foldl_append, List.foldl_cons,
      if_pos (readEntryId_writeSlot eep a t ht), eepRead_writeSlot_status]
    refine foldl_ite_const _ statusAuthorized l2 (fun b hb hp => ?_)
    by_cases hba : b = a
    · subst hba
      exact eepRead_writeSlot_status eep b t
    · exfalso
      have hbmem : b ∈ slotAddrs := by
        rw [hsplit]
        simp [hb]
      have hb5 : b % 5 = 0 := (mem_slotAddrs.mp hbmem).1
      refine hnodup b hbmem ?_
      rw [← readEntryId_writeSlot_other eep a b t ha5 hb5 hba]
      exact hp
  · exact checkAuthTag_clearAuthTags _ t

/-- Witness for C3 on the factory-fresh store: the first free slot is
slot 0 and no identifier matches tag 5 beforehand. -/
theorem c3_insert_lookup_until_erase_witness :
    (addAuthTag ffEeprom 5).1 = statusAuthorized ∧
    checkAuthTag (addAuthTag ffEeprom 5).2 5 = statusAuthorized ∧
    checkAuthTag (clearAuthTags (addAuthTag ffEeprom 5).2) 5 = statusEmpty :=
  c3_insert_lookup_until_erase ffEeprom 5 0 (by decide) (by decide) (by decide)

/-- The admin tag of the compiled-in list after 32-bit truncation. -/
def adminFob : Nat := 0xb0009afb7f % U32

/-- Input trace for C1: an admin fob logs in (button up), the machine is
sensed running, then stops; during the grace period the admin button is
held and the admin fob presented (entering `STATUSADD` from
`STATUSTURNOFF` with the relay still energized); finally the button is
released, cancelling the enrollment. -/
def c1Inputs : List Inputs :=
  [ { runningPin := 0, runningPinInv := 1, adminButton := 1, now := 1000, frame := some adminFob },
    { runningPin := 1, runningPinInv := 0, adminButton := 1, now := 2000, frame := none },
    { runningPin := 0, runningPinInv := 1, adminButton := 1, now := 3000, frame := none },
    { runningPin := 0, runningPinInv := 1, adminButton := 0, now := 3500, frame := some adminFob },
    { runningPin := 0, runningPinInv := 1, adminButton := 1, now := 4000, frame := none } ]

/-- The state reached by running `loop()` on the C1 trace from a normal
boot with a factory-fresh store. -/
def c1Run : SysState :=
  c1Inputs.foldl (fun s i => (loopStep s i).1) (setup ffEeprom false)

/-- C1: the claimed invariant "state Off implies relay de-energized" fails
on the code.  Along the trace `c1Inputs` the enrollment state is entered
from `STATUSTURNOFF` with the relay energized, and its cancellation by
admin-button release (source lines 368-373) returns to `STATUSOFF` without
writing the relay pin: the final state is `STATUSOFF` with the relay still
on. -/
theorem c1_off_state_with_relay_energized :
    c1Run.systemStatus = STATUSOFF ∧ c1Run.relay = RELAYON := by decide

/-- Input for C10: tag 0xFFFFFFFF presented with the admin button up. -/
def c10Input : Inputs :=
  { runningPin := 0, runningPinInv := 1, adminButton := 1, now := 100,
    frame := some 0xFFFFFFFF }

/-- C10: a factory-fresh EEPROM reads 0xFF everywhere, so every slot's
identifier decodes to 0xFFFFFFFF and `checkAuthTag 0xFFFFFFFF` returns the
nonzero status byte 0xFF; the tag-presentation handler treats any nonzero
lookup result as authorized, so presenting 0xFFFFFFFF (obtainable from the
valid frame 00 FF FF FF FF 00) with the button up energizes the relay,
logs one "login" and opens a session (`STATUSTURNON`). -/
theorem c10_factory_fresh_grants_access :
    decodeFrame 0 0xFF 0xFF 0xFF 0xFF 0 = some 0xFFFFFFFF ∧
    checkAuthTag ffEeprom 0xFFFFFFFF = 0xFF ∧
    (loopStep (setup ffEeprom false) c10Input).1.relay = RELAYON ∧
    (loopStep (setup ffEeprom false) c10Input).1.systemStatus = STATUSTURNON ∧
    countLog "login" (loopStep (setup ffEeprom false) c10Input).2 = 1 := by decide

/-- C6: with the store at capacity (no slot free), state `STATUSADD`, a
tag that is neither authorized nor admin, and the admin button held, the
insert fails with 0 (Full), the state becomes `STATUSDEL` (the
erase-confirmation blink reused as failure indication) and one "added"
audit record is still emitted. -/
theorem c6_insert_full_still_logs_added (s : SysState) (t now : Nat)
    (hst : s.systemStatus = STATUSADD)
    (hfull : ∀ a ∈ slotAddrs, freeStatus (eepRead s.eeprom (a + 4)) = false)
    (hauth : checkAuthTag s.eeprom t = 0)
    (hadm : checkAdminTag t ≠ statusAdmin) :
    (handleTag s ADMINDOWN now t).1.systemStatus = STATUSDEL ∧
    countLog "added" (handleTag s ADMINDOWN now t).2 = 1 ∧
    (addAuthTag s.eeprom t).1 = 0 := by
  have hfind : slotAddrs.find? (fun a => freeStatus (eepRead s.eeprom (a + 4))) = none :=
    List.find?_eq_none.mpr (fun a ha => by simp [hfull a ha])
  have hadd : addAuthTag s.eeprom t = (0, s.eeprom) := by
    rw [addAuthTag_eq_find, hfind]
  simp only [handleTag, hst]
  rw [if_pos ⟨trivial, by decide, by decide⟩, if_neg hadm, if_pos ⟨trivial, hauth⟩]
  simp [hadd, countLog, isLogNamed]

/-- A full store: every status byte is `statusAuthorized`, ids are 0. -/
def fullEeprom : Nat → Nat := fun a => if a % 5 = 4 then 1 else 0

/-- A state in `STATUSADD` over the full store, used as the C6 witness. -/
def c6State : SysState :=
  { systemStatus := STATUSADD, bootAdminMode := false, fobPresentMilli := 0,
    runTimeMilli := 0, runningGraceMilli := 0, activeFobId := 0,
    relay := 0, ledGreen := 0, ledRed := 0, eeprom := fullEeprom }

/-- Witness for C6 at the full store and tag 7. -/
theorem c6_insert_full_still_logs_added_witness :
    (handleTag c6State ADMINDOWN 0 7).1.systemStatus = STATUSDEL ∧
    countLog "added" (handleTag c6State ADMINDOWN 0 7).2 = 1 ∧
    (addAuthTag c6State.eeprom 7).1 = 0 :=
  c6_insert_full_still_logs_added c6State 7 0 rfl (by decide) (by decide) (by decide)

/-- A second presentation of the same tag with the same admin-button level
produces no buzzer or audit side effect at all: every side-effecting
branch of the tag handler is blocked after its own first execution (by the
state/active-id guards for the erase and admin branches, and by the state
guards for the login, added and denied branches). -/
theorem handleTag_second_read_silent (s : SysState) (btn t now now' : Nat) :
    (handleTag (handleTag s btn now t).1 btn now' t).2 = [] := by
  by_cases houter : btn = ADMINDOWN ∧ s.systemStatus ≠ STATUSON ∧ s.systemStatus ≠ STATUSTURNON
  · obtain ⟨hb, hon, hton⟩ := houter
    by_cases hadm : checkAdminTag t = statusAdmin
    · by_cases hboot : s.bootAdminMode = true
      · by_cases hg : s.systemStatus ≠ STATUSDEL ∨ s.activeFobId ≠ t
        · simp +decide [handleTag, hb, hon, hton, hadm, hboot, hg]
        · push_neg at hg
          obtain ⟨hdel, hfob⟩ := hg
          simp +decide [handleTag, hb, hdel, hfob, hadm, hboot]
      · by_cases hg : s.systemStatus ≠ STATUSADD ∨ s.activeFobId ≠ t
        · simp +decide [handleTag, hb, hon, hton, hadm, hboot, hg]
        · push_neg at hg
          obtain ⟨hadd, hfob⟩ := hg
          simp +decide [handleTag, hb, hadd, hfob, hadm, hboot]
    · by_cases hAdd : s.systemStatus = STATUSADD ∧ checkAuthTag s.eeprom t = 0
      · obtain ⟨hs4, hau⟩ := hAdd
        by_cases hr : (addAuthTag s.eeprom t).1 ≠ 0
        · simp +decide [handleTag, hb, hs4, hau, hadm, hr]
        · push_neg at hr
          simp +decide [handleTag, hb, hs4, hau, hadm, hr]
      · simp +decide [handleTag, hb, hon, hton, hadm, hAdd]
  · by_cases hauth2 : checkAuthTag s.eeprom t ≠ 0 ∨ checkAdminTag t ≠ 0
    · by_cases hON : s.systemStatus = STATUSON
      · simp +decide [handleTag, houter, hauth2, hON]
      · by_cases hTON : s.systemStatus = STATUSTURNON
        · simp +decide [handleTag, houter, hauth2, hON, hTON]
        · have hbn : ¬ btn = ADMINDOWN := fun hb => houter ⟨hb, hON, hTON⟩
          simp +decide [handleTag, hbn, hauth2, hON, hTON]
    · push_neg at hauth2
      obtain ⟨hau0, had0⟩ := hauth2
      have hadm0 : ¬ checkAdminTag t = statusAdmin := by simp +decide [had0]
      by_cases hOT : s.systemStatus = STATUSOFF ∨ s.systemStatus = STATUSTURNON
      · by_cases hb0 : btn = ADMINDOWN
        · have hTON : s.systemStatus = STATUSTURNON := by
            rcases hOT with h | h
            · exact absurd ⟨hb0, by simp +decide [h], by simp +decide [h]⟩ houter
            · exact h
          simp +decide [handleTag, hb0, hTON, hau0, had0, hadm0]
        · have hgd : s.systemStatus ≠ STATUSDENIED := by
            rcases hOT with h | h <;> simp +decide [h]
          simp +decide [handleTag, houter, hb0, hau0, had0, hOT, hgd]
      · simp +decide [handleTag, houter, hau0, had0, hOT]

/-- C5: re-reads of the same tag with no intervening state change cause no
repeated side effects — the second consecutive presentation of the same
tag (same button level) emits no audit record and no tone; and repeated
admin-tag reads with the button held, from any state outside
`STATUSON`/`STATUSTURNON`/`STATUSADD` and not booted in admin mode,
produce exactly one "admin" log line across both reads and leave the
state at `STATUSADD`. -/
theorem c5_reread_no_side_effects (s : SysState) (btn t now now' : Nat) :
    (handleTag (handleTag s btn now t).1 btn now' t).2 = [] ∧
    (btn = ADMINDOWN → s.bootAdminMode = false → checkAdminTag t = statusAdmin →
      s.systemStatus ≠ STATUSADD → s.systemStatus ≠ STATUSON → s.systemStatus ≠ STATUSTURNON →
      countLog "admin"
          ((handleTag s btn now t).2 ++ (handleTag (handleTag s btn now t).1 btn now' t).2) = 1 ∧
      (handleTag (handleTag s btn now t).1 btn now' t).1.systemStatus = STATUSADD) := by
  refine ⟨handleTag_second_read_silent s btn t now now', fun hb hboot hadm hsadd hon hton => ?_⟩
  simp +decide [handleTag, hb, hboot, hadm, hsadd, hon, hton, countLog, isLogNamed]

/-- Witness for C5: the admin fob presented twice with the button held,
from a normal boot over a factory-fresh store. -/
theorem c5_reread_no_side_effects_witness :
    countLog "admin"
        ((handleTag (setup ffEeprom false) 0 3 adminFob).2 ++
          (handleTag (handleTag (setup ffEeprom false) 0 3 adminFob).1 0 4 adminFob).2) = 1 ∧
    (handleTag (handleTag (setup ffEeprom false) 0 3 adminFob).1 0 4 adminFob).1.systemStatus =
      STATUSADD :=
  (c5_reread_no_side_effects (setup ffEeprom false) 0 adminFob 3 4).2 rfl rfl (by decide)
    (by decide) (by decide) (by decide)
